import Mathlib

/-!
Shallow embedding of `src/main.go` (package main of go-err-handling-demo):
an error identity and propagation framework built around the `apiError`
struct, a process-wide error-number counter, and a database → service → API
pipeline that classifies and serializes errors at the boundary.

Modelling conventions:
* Go `error` interface values are modelled by the inductive `GoError`.
  A possibly-nil `error` is `Option GoError` (`none` = Go `nil`).
* `errors.New` (pkg/errors `fundamental`) and `errors.Wrap`
  (pkg/errors `withStack` ∘ `withMessage`) return fresh pointers in Go;
  the `id : Nat` field models pointer identity of each allocation, so Go
  interface equality is structural equality in the model.
  `errors.Wrap`'s two wrapper layers (`withStack`, `withMessage`) are
  collapsed into the single `wrapped` node: `withStack` forwards `Error()`
  unchanged and neither layer is an `apiError` nor has an `Is` method, so
  the collapse preserves `Error()` strings and the `errors.Is`/`errors.As`
  walks.
* Go `uint64` arithmetic is `Nat` with explicit `% 2^64` where the counter
  is incremented; `int` values (codes) are `Int` (no arithmetic is ever
  performed on them).
* `fmt.Sprintf` is modelled for the verbs this program uses: `%s` with
  string arguments (all call sites of `F` pass strings), including Go's
  `%!s(MISSING)` / `%!(EXTRA ...)` leniency, and the `"%s: %v"` pattern of
  `Error()` which renders the cause via its own `Error()` method.
-/

/-- 2^64, the modulus of Go's `uint64` (`var errNo uint64`, main.go:15). -/
def UINT64_MOD : Nat := 18446744073709551616

/-- A Go `error` interface value as it can occur in this program:
an `apiError` (main.go:18-23, value type, boxed into the interface),
an external library error (`errors.New`, main.go:91), or a
diagnostic wrap produced by `errors.Wrap` (main.go:136). -/
inductive GoError where
  | api (code : Int) (message : String) (errno : Nat) (cause : Option GoError)
  | external (id : Nat) (msg : String)
  | wrapped (id : Nat) (msg : String) (cause : GoError)
deriving Repr

/-- The `apiError` struct (main.go:18-23): public `Code` and `Message`
(serialized), unexported `errno` (identity) and `err` (cause). -/
structure ApiError where
  Code : Int
  Message : String
  errno : Nat
  err : Option GoError
deriving Repr

/-- Boxing an `apiError` value into the `error` interface. -/
def ApiError.toGo (e : ApiError) : GoError :=
  .api e.Code e.Message e.errno e.err

/-- Go interface equality (`==`) on the error values of this program:
same dynamic type and equal comparable values; `apiError` compares
field-wise (its `err` field compares as an interface), the pointer types
compare by allocation identity, carried here by `id`. -/
def goEq : GoError → GoError → Bool
  | .api c1 m1 n1 e1, .api c2 m2 n2 e2 =>
    c1 == c2 && m1 == m2 && n1 == n2 &&
    (match e1, e2 with
     | none, none => true
     | some x, some y => goEq x y
     | _, _ => false)
  | .external i1 m1, .external i2 m2 => i1 == i2 && m1 == m2
  | .wrapped i1 m1 c1, .wrapped i2 m2 c2 => i1 == i2 && m1 == m2 && goEq c1 c2
  | _, _ => false

/-- `Unwrap` as the `errors` package sees it: `apiError.Unwrap` returns
`e.err` (main.go:42-44), `withStack`/`withMessage` unwrap to the wrapped
cause, `errors.New` values have no `Unwrap` method. -/
def goUnwrap : GoError → Option GoError
  | .api _ _ _ cause => cause
  | .external _ _ => none
  | .wrapped _ _ cause => some cause

/-- The `Error()` string of an error value: `apiError.Error` (main.go:25-30)
is `Message` alone when `err` is nil, else `fmt.Sprintf("%s: %v", e.Message, e.err)`
where `%v` on an error renders its own `Error()`; `withMessage.Error` of a
pkg/errors wrap is `msg + ": " + cause.Error()` (and `withStack` forwards it). -/
def errorString : GoError → String
  | .api _ message _ none => message
  | .api _ message _ (some c) => message ++ ": " ++ errorString c
  | .external _ msg => msg
  | .wrapped _ msg cause => msg ++ ": " ++ errorString cause

/-- Stdlib `errors.Is(err, target)` for non-nil `err` and non-nil `target`
(pkg/errors.Is delegates to the stdlib): loop over the unwrap chain of
`err`, at each element checking interface equality with `target`, then the
element's own `Is` method when it has one (only `apiError` does,
main.go:46-53: for an `apiError` target it compares `errno`, otherwise it
calls `errors.Is` on its cause — which is `false` when the cause is nil,
since the target here is non-nil), then unwrapping. -/
def errIs : GoError → GoError → Bool
  | .api c m n cause, t =>
    goEq (.api c m n cause) t ||
    (match t with
     | .api _ _ tn _ => n == tn
     | _ => match cause with
            | some c' => errIs c' t
            | none => false) ||
    (match cause with
     | some c' => errIs c' t
     | none => false)
  | .external i m, t => goEq (.external i m) t
  | .wrapped i m c, t => goEq (.wrapped i m c) t || errIs c t

/-- Stdlib `errors.Is` on possibly-nil arguments: a nil target matches only
a nil error, a nil error matches nothing else. -/
def optIs : Option GoError → Option GoError → Bool
  | e, none => e.isNone
  | none, some _ => false
  | some e, some t => errIs e t

/-- `apiError.Is` (main.go:46-53): if the target's dynamic type is
`apiError`, compare `errno`; otherwise check the underlying error with
`errors.Is(e.err, target)`. -/
def ApiError.IsM (e : ApiError) (target : Option GoError) : Bool :=
  match target with
  | some (.api _ _ tn _) => e.errno == tn
  | _ => optIs e.err target

/-- `apiError.Error` (main.go:25-30). -/
def ApiError.ErrorS (e : ApiError) : String :=
  errorString e.toGo

/-- Substitution core of `fmt.Sprintf` for the `%s` directives this
program uses, with Go's leniency: a `%s` without a remaining argument
renders `%!s(MISSING)`, leftover arguments are appended as
`%!(EXTRA string=..., ...)`. -/
def sprintfChars : List Char → List String → List Char
  | '%' :: 's' :: rest, a :: as => a.data ++ sprintfChars rest as
  | '%' :: 's' :: rest, [] => "%!s(MISSING)".data ++ sprintfChars rest []
  | c :: rest, as => c :: sprintfChars rest as
  | [], [] => []
  | [], a :: as =>
    ("%!(EXTRA " ++ String.intercalate ", " ((a :: as).map (fun s => "string=" ++ s)) ++ ")").data

/-- `fmt.Sprintf` on a format string and string arguments (every call of
`F` in this program passes string arguments). -/
def sprintf (fmt : String) (args : List String) : String :=
  ⟨sprintfChars fmt.data args⟩

/-- `apiError.F` (main.go:32-35): re-render `Message` from itself as a
format string; `Code`, `errno` and `err` are carried over unchanged by the
value receiver. -/
def ApiError.F (e : ApiError) (a : List String) : ApiError :=
  { e with Message := sprintf e.Message a }

/-- `apiError.Wrap` (main.go:37-40): set `err` on the value copy and return
it (boxed into the `error` interface by the Go return type). -/
def ApiError.WrapM (e : ApiError) (err : Option GoError) : ApiError :=
  { e with err := err }

/-- `apiError.Unwrap` (main.go:42-44). -/
def ApiError.UnwrapM (e : ApiError) : Option GoError :=
  e.err

/-- `NewError` (main.go:55-63) as a function of the `errNo` counter state:
the new template's `errno` is the value read from the counter, then the
counter is incremented with `uint64` wraparound (`atomic.AddUint64`).
The stored value is reduced `% 2^64` because the Go variable is a `uint64`
(its content is always its residue). -/
def NewError (code : Int) (message : String) (s : Nat) : ApiError × Nat :=
  (⟨code, message, s % UINT64_MOD, none⟩, (s + 1) % UINT64_MOD)

/-- Running a sequence of `NewError` calls sequentially from counter state
`s`, returning the templates in creation order. -/
def runNewErrors : List (Int × String) → Nat → List ApiError
  | [], _ => []
  | p :: rest, s =>
    let r := NewError p.1 p.2 s
    r.1 :: runNewErrors rest r.2

/-- Global templates (main.go:85-92 and main.go:118), created in package
initialization order from the zero-initialized counter: `ErrNotFound` gets
errno 0, `ErrInvalidId` errno 1, `ErrThingIdTooHigh` errno 2. -/
def ErrNotFound : ApiError := (NewError 404 "%s not found" 0).1

/-- Counter state after creating `ErrNotFound`. -/
def errNoState1 : Nat := (NewError 404 "%s not found" 0).2

/-- `ErrInvalidId = NewError(http.StatusBadRequest, "invalid %s id")` (main.go:88). -/
def ErrInvalidId : ApiError := (NewError 400 "invalid %s id" errNoState1).1

/-- Counter state after creating `ErrInvalidId`. -/
def errNoState2 : Nat := (NewError 400 "invalid %s id" errNoState1).2

/-- `ErrThingIdTooHigh = NewError(http.StatusBadRequest, "%s id too high")` (main.go:118). -/
def ErrThingIdTooHigh : ApiError := (NewError 400 "%s id too high" errNoState2).1

/-- `ErrFromExternalLib = errors.New("external lib error")` (main.go:91):
a pkg/errors `fundamental` allocated once at initialization; allocation
identity 0. -/
def ErrFromExternalLib : GoError := .external 0 "external lib error"

/-- `externalLibGet` (main.go:97-99): always returns `ErrFromExternalLib`. -/
def externalLibGet : Option GoError := some ErrFromExternalLib

/-- `Database.GetThingById` (main.go:101-113). -/
def GetThingById (id : Int) : Option GoError :=
  if id < 0 then
    some (ErrInvalidId.F ["thing"]).toGo
  else
    match externalLibGet with
    | some err => some ((ErrNotFound.F ["thing"]).WrapM (some err)).toGo
    | none => none

/-- `Service.DoSomethingWithThing` (main.go:124-142); the single
`errors.Wrap` allocation of main.go:136 gets allocation identity 1. -/
def DoSomethingWithThing (id : Int) : Option GoError :=
  if id ≥ 10 then
    some (ErrThingIdTooHigh.F ["thing"]).toGo
  else
    match GetThingById id with
    | some err =>
      if errIs err ErrInvalidId.toGo then
        some (.wrapped 1 "this is a wrapped error" err)
      else
        some err
    | none => none

/-- `errors.As(err, &apiErr)` for an `*apiError` target (main.go:151-153):
walk the unwrap chain from `err` and assign the first element whose dynamic
type is `apiError`; `true` iff one is found. -/
def errAs : GoError → Option ApiError
  | .api c m n cause => some ⟨c, m, n, cause⟩
  | .external _ _ => none
  | .wrapped _ _ cause => errAs cause

/-- The unwrap chain of an error: the error itself followed by the chain of
its `Unwrap` results (the walk `errors.As` and `errors.Is` perform). -/
def unwrapChain : GoError → List GoError
  | .api c m n cause =>
    .api c m n cause :: (match cause with
                         | some c' => unwrapChain c'
                         | none => [])
  | .external i m => [.external i m]
  | .wrapped i m cause => .wrapped i m cause :: unwrapChain cause

/-- Projection of a single error value onto `apiError`: the per-element
type test `errors.As` applies while walking the chain. -/
def asApi : GoError → Option ApiError
  | .api c m n cause => some ⟨c, m, n, cause⟩
  | _ => none

/-- JSON string escaping as `encoding/json` performs it on the message
strings of this program (plain printable ASCII; the standard escapes and
Go's HTML-escaping of angle brackets and ampersand are included for the
characters Go would rewrite). -/
def jsonEscapeChar (c : Char) : List Char :=
  if c = '"' then ['\\', '"']
  else if c = '\\' then ['\\', '\\']
  else if c = '\n' then ['\\', 'n']
  else if c = '\r' then ['\\', 'r']
  else if c = '\t' then ['\\', 't']
  else if c = '<' then "\\u003c".data
  else if c = '>' then "\\u003e".data
  else if c = '&' then "\\u0026".data
  else [c]

/-- JSON-escape a whole string. -/
def jsonEscape (s : String) : String :=
  ⟨s.data.foldr (fun c acc => jsonEscapeChar c ++ acc) []⟩

/-- `json.MarshalIndent(apiErr, "", "  ")` (main.go:158): only the exported,
tagged fields `Code` (`json:"code"`) and `Message` (`json:"message"`) are
serialized; the unexported `errno` and `err` never appear. -/
def marshalApiError (e : ApiError) : String :=
  "\x7b\n  \"code\": " ++ toString e.Code ++ ",\n  \"message\": \"" ++
    jsonEscape e.Message ++ "\"\n\x7d"

/-- What `respondWithError` emits: either the JSON body sent to the client,
or the unknown-error path (500-equivalent) carrying the opaque error it
logs. -/
inductive Response where
  | clientBody (json : String)
  | unknownError (err : GoError)
deriving Repr

/-- `respondWithError` (main.go:150-167). -/
def respondWithError (err : GoError) : Response :=
  match errAs err with
  | some apiErr => .clientBody (marshalApiError apiErr)
  | none => .unknownError err

/-- `API.DoSomethingWithThingHandler` (main.go:170-178): `none` is the
200 OK path. -/
def DoSomethingWithThingHandler (id : Int) : Option Response :=
  (DoSomethingWithThing id).map respondWithError

/-- One memory access of `NewError` (main.go:55-63), split at its two
accesses to the shared counter: `read t` is thread `t` evaluating the
composite literal field `errno: errNo` (main.go:59, a plain unsynchronized
load), `inc t` is thread `t` executing `atomic.AddUint64(&errNo, 1)`
(main.go:61). -/
inductive CStep where
  | read (t : Bool)
  | inc (t : Bool)
deriving DecidableEq, Repr

/-- Shared-memory state for two concurrent `NewError` calls: the counter
and, per thread, the `errno` value its template has captured so far. -/
structure CState where
  errNo : Nat
  captured1 : Option Nat
  captured2 : Option Nat
deriving Repr

/-- Effect of one access on the shared state. -/
def cstep : CStep → CState → CState
  | .read true, st => { st with captured1 := some (st.errNo % UINT64_MOD) }
  | .read false, st => { st with captured2 := some (st.errNo % UINT64_MOD) }
  | .inc _, st => { st with errNo := (st.errNo + 1) % UINT64_MOD }

/-- Run a schedule of accesses. -/
def crun : List CStep → CState → CState
  | [], st => st
  | s :: rest, st => crun rest (cstep s st)

/-- The access sequence one `NewError` call performs: read the counter into
the template, then atomically increment it. -/
def newErrorProg (t : Bool) : List CStep := [.read t, .inc t]

/-- Decides whether `l` is an interleaving of the two access sequences `l1`
and `l2` (each thread's own accesses kept in program order). -/
def isInterleaving : List CStep → List CStep → List CStep → Bool
  | l1, l2, [] => l1.isEmpty && l2.isEmpty
  | l1, l2, c :: l =>
    (match l1 with
     | x :: l1' => x == c && isInterleaving l1' l2 l
     | [] => false) ||
    (match l2 with
     | y :: l2' => y == c && isInterleaving l1 l2' l
     | [] => false)

/-- The claim's `Is` relation on the cause chain, written from the spec's
words (for comparison with the code's `apiError.Is`): the target is a
StructuredError whose identity equals the identity of the error at hand,
or the same check holds recursively for its cause. -/
def claimIsChain : GoError → Option GoError → Bool
  | .api _ _ n cause, t =>
    (match t with
     | some (.api _ _ tn _) => n == tn
     | _ => false) ||
    (match cause with
     | some c => claimIsChain c t
     | none => false)
  | .external _ _, _ => false
  | .wrapped _ _ cause, t => claimIsChain cause t

/-- The claim's predicate for `Is(e, target)`, from the spec's words:
target is a StructuredError with `target.identity == e.identity`, or
recursively true for `e.cause`. -/
def claimIs (e : ApiError) (target : Option GoError) : Bool :=
  claimIsChain e.toGo target

/-- Claim C4: for every StructuredError `e` and every error `c`,
`Wrap(e, c)` returns a value whose identity, publicCode and renderedMessage
equal those of `e`, whose `Unwrap()` returns exactly `c`, and only the
cause field differs from `e`. -/
theorem wrap_preserves_identity_and_sets_cause (e : ApiError) (c : Option GoError) :
    (e.WrapM c).errno = e.errno ∧ (e.WrapM c).Code = e.Code ∧
    (e.WrapM c).Message = e.Message ∧ (e.WrapM c).UnwrapM = c ∧
    (e.WrapM c).err = c :=
  ⟨rfl, rfl, rfl, rfl, rfl⟩

/-- Claim C6: for every template `e` and any two argument lists, `F` yields
StructuredErrors with equal identity and equal public code: identity is
invariant under the formatting arguments. -/
theorem format_identity_argument_invariant (e : ApiError) (a1 a2 : List String) :
    (e.F a1).errno = (e.F a2).errno ∧ (e.F a1).Code = (e.F a2).Code :=
  ⟨rfl, rfl⟩

/-- Claim C10: for every `apiError` whose cause field is nil, `Is(nil)`
returns true: the non-StructuredError fallback delegates to
`errors.Is(e.err, nil)`, which holds when `e.err` is nil. -/
theorem is_nil_true_when_cause_nil (e : ApiError) (h : e.err = none) :
    ApiError.IsM e none = true := by
  simp [ApiError.IsM, optIs, h]

/-- Witness for `is_nil_true_when_cause_nil` at the freshly created
template `ErrNotFound`. -/
theorem is_nil_true_when_cause_nil_witness : ApiError.IsM ErrNotFound none = true :=
  is_nil_true_when_cause_nil ErrNotFound rfl

/-- Claim C7: `Error()` returns exactly the rendered message when the cause
is absent, and otherwise the rendered message, a colon and a space, then the
cause's message (recursively, since `errorString` renders a chained cause by
the same rule); wrapping the external-library error under the formatted
not-found error yields `"thing not found: external lib error"`. -/
theorem message_renders_cause_chain (e : ApiError) (c : GoError) :
    (e.err = none → e.ErrorS = e.Message) ∧
    (e.err = some c → e.ErrorS = e.Message ++ ": " ++ errorString c) ∧
    ((ErrNotFound.F ["thing"]).WrapM (some ErrFromExternalLib)).ErrorS
      = "thing not found: external lib error" := by
  refine ⟨fun h => ?_, fun h => ?_, rfl⟩
  · simp [ApiError.ErrorS, ApiError.toGo, h, errorString]
  · simp [ApiError.ErrorS, ApiError.toGo, h, errorString]

/-- Witness for `message_renders_cause_chain`: the wrapped not-found error
renders its cause after a colon. -/
theorem message_renders_cause_chain_witness :
    ((ErrNotFound.F ["thing"]).WrapM (some ErrFromExternalLib)).ErrorS
      = ((ErrNotFound.F ["thing"]).WrapM (some ErrFromExternalLib)).Message
          ++ ": " ++ errorString ErrFromExternalLib :=
  (message_renders_cause_chain ((ErrNotFound.F ["thing"]).WrapM (some ErrFromExternalLib))
    ErrFromExternalLib).2.1 rfl

/-- Claim C9: the serialized external representation contains only the
public code and message: whenever classification at the API boundary finds
StructuredErrors with equal `Code` and `Message`, the response bodies are
identical, whatever the internal `errno` and cause fields are. -/
theorem serialization_depends_only_on_public_fields (g1 g2 : GoError)
    (a1 a2 : ApiError) (h1 : errAs g1 = some a1) (h2 : errAs g2 = some a2)
    (hc : a1.Code = a2.Code) (hm : a1.Message = a2.Message) :
    respondWithError g1 = respondWithError g2 := by
  simp [respondWithError, h1, h2, marshalApiError, hc, hm]

/-- Witness for `serialization_depends_only_on_public_fields`: two errors
with the same public fields but different `errno` and cause produce the same
response. -/
theorem serialization_depends_only_on_public_fields_witness :
    respondWithError (GoError.api 400 "x" 0 none) =
      respondWithError (GoError.wrapped 5 "w"
        (GoError.api 400 "x" 7 (some (GoError.external 3 "e")))) :=
  serialization_depends_only_on_public_fields _ _
    ⟨400, "x", 0, none⟩ ⟨400, "x", 7, some (GoError.external 3 "e")⟩
    rfl rfl rfl rfl

/-- Claim C1 (counterexample): the claim predicts that when the target is a
StructuredError with a different identity the cause chain is still
consulted, so `claimIs` holds here (the cause has the target's identity);
but `apiError.Is` compares identities and stops, returning `false`. -/
theorem is_method_ignores_chain_for_structured_targets :
    claimIs ⟨404, "m", 0, some (GoError.api 400 "n" 1 none)⟩
        (some (GoError.api 400 "n" 1 none)) = true ∧
    ApiError.IsM ⟨404, "m", 0, some (GoError.api 400 "n" 1 none)⟩
        (some (GoError.api 400 "n" 1 none)) = false := by
  decide

/-- For a target that is not an `apiError`, `errors.Is` reduces to chain
membership under Go interface equality: no element's `Is` method can match
such a target other than by delegating further down the same chain. -/
theorem errIs_eq_any_goEq : ∀ (x t : GoError), asApi t = none →
    errIs x t = (unwrapChain x).any (fun y => goEq y t)
  | .api c m n cause, t, h => by
    cases t with
    | api tc tm tn tca => simp [asApi] at h
    | external ti tm =>
      cases cause with
      | none => simp [errIs, unwrapChain]
      | some c' =>
        have ih := errIs_eq_any_goEq c' (.external ti tm) h
        simp [errIs, unwrapChain, ih, Bool.or_self, Bool.or_assoc]
    | wrapped ti tm tc =>
      cases cause with
      | none => simp [errIs, unwrapChain]
      | some c' =>
        have ih := errIs_eq_any_goEq c' (.wrapped ti tm tc) h
        simp [errIs, unwrapChain, ih, Bool.or_self, Bool.or_assoc]
  | .external i m, t, h => by
    cases t <;> simp [errIs, unwrapChain]
  | .wrapped i m c, t, h => by
    have ih := errIs_eq_any_goEq c t h
    cases t <;> simp [errIs, unwrapChain, ih]

/-- Claim C1 (amended): `apiError.Is` compares identities and nothing else
when the target's dynamic type is `apiError` — the cause chain is not
consulted by the method (the package-level `errors.Is`, not the method,
walks the chain); for a non-`apiError` target it delegates to
`errors.Is(e.err, target)`, which holds iff the cause chain contains an
element equal to the target under Go's interface equality; a nil target
matches iff the cause is nil. -/
theorem is_method_amended (e : ApiError) (t : Option GoError) :
    ApiError.IsM e t =
      match t with
      | some (GoError.api _ _ tn _) => e.errno == tn
      | some t' =>
        (match e.err with
         | some c => (unwrapChain c).any (fun y => goEq y t')
         | none => false)
      | none => e.err.isNone := by
  match t with
  | none => simp [ApiError.IsM, optIs]
  | some (GoError.api tc tm tn tca) => simp [ApiError.IsM]
  | some (GoError.external ti tm) =>
    cases he : e.err with
    | none => simp [ApiError.IsM, optIs, he]
    | some c =>
      simp [ApiError.IsM, optIs, he, errIs_eq_any_goEq c (.external ti tm) rfl]
  | some (GoError.wrapped ti tm tc) =>
    cases he : e.err with
    | none => simp [ApiError.IsM, optIs, he]
    | some c =>
      simp [ApiError.IsM, optIs, he, errIs_eq_any_goEq c (.wrapped ti tm tc) rfl]

/-- Claim C2: `NewError` reads `errNo` into the template (main.go:59) with a
plain load and only then increments with `atomic.AddUint64` (main.go:61), so
the read and the increment are not one atomic operation. Under the
interleaving in which both threads read before either increments — a valid
interleaving of the two calls' access sequences — both templates capture
errno 0: a duplicate identity, contradicting the unique-output-per-call
requirement stated in the spec and in the comment on `errNo` (main.go:14). -/
theorem concurrent_new_error_duplicate_errno :
    isInterleaving (newErrorProg true) (newErrorProg false)
      [CStep.read true, CStep.read false, CStep.inc true, CStep.inc false] = true ∧
    (crun [CStep.read true, CStep.read false, CStep.inc true, CStep.inc false]
      ⟨0, none, none⟩).captured1 = some 0 ∧
    (crun [CStep.read true, CStep.read false, CStep.inc true, CStep.inc false]
      ⟨0, none, none⟩).captured2 = some 0 := by
  refine ⟨rfl, rfl, rfl⟩

/-- The value `errors.As` extracts is exactly the first element of the
unwrap chain whose dynamic type is `apiError`. -/
theorem errAs_eq_findSome : ∀ e : GoError,
    errAs e = (unwrapChain e).findSome? asApi
  | .api c m n cause => by
    cases cause <;> simp [errAs, unwrapChain, List.findSome?_cons, asApi]
  | .external i m => by simp [errAs, unwrapChain, List.findSome?, asApi]
  | .wrapped i m cause => by
    have ih := errAs_eq_findSome cause
    simp [errAs, unwrapChain, List.findSome?_cons, asApi, ih]

/-- Claim C3: classification at the API boundary (`errors.As` inside
`respondWithError`) succeeds iff the unwrap chain of the error contains at
least one StructuredError, the extracted value is the first such element
from the top of the chain, a success is rendered as the client JSON body,
and a failure takes the generic unknown-error path. -/
theorem classify_first_structured (e : GoError) :
    errAs e = (unwrapChain e).findSome? asApi ∧
    ((errAs e).isSome ↔ ∃ x ∈ unwrapChain e, (asApi x).isSome) ∧
    (∀ a, errAs e = some a → respondWithError e = .clientBody (marshalApiError a)) ∧
    (errAs e = none → respondWithError e = .unknownError e) := by
  have h := errAs_eq_findSome e
  refine ⟨h, ?_, fun a ha => ?_, fun ha => ?_⟩
  · rw [h]
    constructor
    · intro hs
      by_contra hnone
      push_neg at hnone
      rw [Option.isSome_iff_ne_none, ne_eq, List.findSome?_eq_none_iff] at hs
      exact hs fun x hx => by
        have := hnone x hx
        simpa [Option.isSome_iff_ne_none] using this
    · rintro ⟨x, hx, hsx⟩
      rw [Option.isSome_iff_ne_none, ne_eq, List.findSome?_eq_none_iff]
      intro hall
      rw [Option.isSome_iff_ne_none] at hsx
      exact hsx (hall x hx)
  · simp [respondWithError, ha]
  · simp [respondWithError, ha]

/-- Witness for `classify_first_structured`: the diagnostic wrap produced by
the service layer still classifies to the inner `apiError` and renders its
body. -/
theorem classify_first_structured_witness :
    respondWithError (GoError.wrapped 1 "this is a wrapped error"
        (GoError.api 400 "invalid thing id" 1 none)) =
      Response.clientBody (marshalApiError ⟨400, "invalid thing id", 1, none⟩) :=
  (classify_first_structured _).2.2.1 ⟨400, "invalid thing id", 1, none⟩ rfl

/-- Each `NewError` call produces exactly one template. -/
theorem runNewErrors_length : ∀ (l : List (Int × String)) (s : Nat),
    (runNewErrors l s).length = l.length
  | [], _ => rfl
  | _ :: rest, s => by
    simp [runNewErrors, runNewErrors_length rest]

/-- The template produced by the `i`-th call of a sequential run carries
errno `(s + i) % 2^64` where `s` is the starting counter state. -/
theorem runNewErrors_getElem? : ∀ (l : List (Int × String)) (s i : Nat),
    (runNewErrors l s)[i]? =
      (l[i]?).map (fun p => (⟨p.1, p.2, (s + i) % UINT64_MOD, none⟩ : ApiError))
  | [], s, i => by simp [runNewErrors]
  | p :: rest, s, 0 => by simp [runNewErrors, NewError]
  | p :: rest, s, i + 1 => by
    have ih := runNewErrors_getElem? rest ((s + 1) % UINT64_MOD) i
    simp only [runNewErrors, NewError, List.getElem?_cons_succ, ih, Nat.mod_add_mod]
    have : s + 1 + i = s + (i + 1) := by omega
    rw [this]

/-- Indexing a replicated call list. -/
theorem replicate_getElem? (a : Int × String) : ∀ (n i : Nat), i < n →
    (List.replicate n a)[i]? = some a
  | n + 1, 0, _ => by simp [List.replicate]
  | n + 1, i + 1, h => by
    simp only [List.replicate, List.getElem?_cons_succ]
    exact replicate_getElem? a n i (by omega)

/-- Claim C5 (counterexample): the counter is a `uint64`, so a sequential
run of `2^64 + 1` calls wraps: the first template and the `2^64`-th
template are distinct templates of the run, yet both carry errno 0 —
identities are reused and the later one is not greater. -/
theorem identity_reuse_after_wraparound :
    (runNewErrors (List.replicate (UINT64_MOD + 1) (400, "m")) 0)[0]? =
      some (⟨400, "m", 0, none⟩ : ApiError) ∧
    (runNewErrors (List.replicate (UINT64_MOD + 1) (400, "m")) 0)[UINT64_MOD]? =
      some (⟨400, "m", 0, none⟩ : ApiError) := by
  constructor
  · rw [runNewErrors_getElem?, replicate_getElem? _ _ 0 (by omega)]
    simp
  · rw [runNewErrors_getElem?, replicate_getElem? _ _ UINT64_MOD (by omega)]
    simp [Nat.mod_self]

/-- Claim C5 (amended): for any sequential run of at most `2^64` calls of
`NewError` from the initial counter, templates created later have strictly
greater identities than templates created earlier — in particular all
identities are distinct and none is reused within such a run; beyond
`2^64` calls the `uint64` counter wraps and identities repeat. -/
theorem identities_strictly_increasing (l : List (Int × String)) (i j : Nat)
    (a b : ApiError) (hi : (runNewErrors l 0)[i]? = some a)
    (hj : (runNewErrors l 0)[j]? = some b) (hij : i < j)
    (hlen : l.length ≤ UINT64_MOD) :
    a.errno < b.errno := by
  have hjlt : j < l.length := by
    have := List.getElem?_eq_some_iff.mp hj
    obtain ⟨hlt, -⟩ := this
    simpa [runNewErrors_length] using hlt
  rw [runNewErrors_getElem?] at hi hj
  obtain ⟨pi, hpi, hai⟩ := Option.map_eq_some'.mp hi
  obtain ⟨pj, hpj, haj⟩ := Option.map_eq_some'.mp hj
  subst hai
  subst haj
  show (0 + i) % UINT64_MOD < (0 + j) % UINT64_MOD
  rw [Nat.zero_add, Nat.zero_add, Nat.mod_eq_of_lt (by omega),
    Nat.mod_eq_of_lt (by omega)]
  exact hij

/-- Witness for `identities_strictly_increasing`: in the run creating the
three global templates, the third template's identity exceeds the first's. -/
theorem identities_strictly_increasing_witness :
    (⟨404, "%s not found", 0, none⟩ : ApiError).errno <
      (⟨400, "%s id too high", 2, none⟩ : ApiError).errno :=
  identities_strictly_increasing
    [(404, "%s not found"), (400, "invalid %s id"), (400, "%s id too high")]
    0 2 ⟨404, "%s not found", 0, none⟩ ⟨400, "%s id too high", 2, none⟩
    rfl rfl (by omega) (by norm_num [UINT64_MOD])

/-- Claim C8: for every negative id, the end-to-end pipeline — the database
returning `ErrInvalidId` formatted with `"thing"`, the service layer adding
the diagnostic `errors.Wrap` layer — still renders the client-visible body
with code 400 and message `"invalid thing id"`: the extra diagnostic layer
does not change the serialized code or message. -/
theorem negative_id_renders_invalid_thing_id (id : Int) (h : id < 0) :
    DoSomethingWithThingHandler id =
      some (Response.clientBody
        "\x7b\n  \"code\": 400,\n  \"message\": \"invalid thing id\"\n\x7d") := by
  have h10 : ¬ id ≥ 10 := by omega
  unfold DoSomethingWithThingHandler DoSomethingWithThing GetThingById
  rw [if_neg h10, if_pos h]
  rfl

/-- Witness for `negative_id_renders_invalid_thing_id` at id `-1`, the
request the demo's `main` issues. -/
theorem negative_id_renders_invalid_thing_id_witness :
    DoSomethingWithThingHandler (-1) =
      some (Response.clientBody
        "\x7b\n  \"code\": 400,\n  \"message\": \"invalid thing id\"\n\x7d") :=
  negative_id_renders_invalid_thing_id (-1) (by norm_num)
